import Mathlib

/-
  Verification development for the OpenMediaVault poll coordinator
  (custom_components/openmediavault/omv_controller.py).

  The controller's data model is shallowly embedded: Python dict records become
  association lists from field names to dynamically typed values, the
  normalization engine (parse_api, which lives in a module outside the core
  source file) is modelled from the specification's description, and the two
  update cycles become explicit state-and-trace transition functions.
-/

set_option autoImplicit false

namespace OMV

/-- Dynamically typed Python value as it occurs in the controller's records:
a string, an integer, a boolean, or a float (modelled as a rational). -/
inductive PVal where
  | s (v : String)
  | i (v : Int)
  | b (v : Bool)
  | q (v : ℚ)
deriving DecidableEq

/-- A record: a Python dict from field name to value, kept in insertion order. -/
abbrev Record := List (String × PVal)

/-- A keyed collection: a Python dict from a string key to a record. -/
abbrev RecordMap := List (String × Record)

/-- Field lookup in a record (first occurrence wins, as in a dict). -/
def getField (r : Record) (n : String) : Option PVal :=
  (r.find? (fun p => p.1 == n)).map (fun p => p.2)

/-- Key lookup in a keyed collection. -/
def lookupRec (m : RecordMap) (k : String) : Option Record :=
  (m.find? (fun p => p.1 == k)).map (fun p => p.2)

/-- Dict assignment `r[n] = v`: replaces an existing field in place, else appends. -/
def setField (r : Record) (n : String) (v : PVal) : Record :=
  if (r.find? (fun p => p.1 == n)).isSome then
    r.map (fun p => if p.1 == n then (n, v) else p)
  else
    r ++ [(n, v)]

/-- Whitespace stripped by Python's `int(...)` and `str.strip()`. -/
def isSpaceChar (c : Char) : Bool :=
  c == ' ' || c == '\t' || c == '\n' || c == '\r'

/-- Split a character list on a separator character, keeping empty pieces —
the semantics of Python's `str.split(sep)` for a one-character separator. -/
def splitOnChar (sep : Char) : List Char → List (List Char)
  | [] => [[]]
  | c :: cs =>
    match splitOnChar sep cs with
    | [] => [[c]]
    | h :: t => if c == sep then [] :: h :: t else (c :: h) :: t

/-- Python `str.split(sep)` for a one-character separator. -/
def pySplit (s : String) (sep : Char) : List String :=
  (splitOnChar sep s.data).map String.mk

/-- Numeric value of a decimal digit character. -/
def charDigit (c : Char) : Option Nat :=
  if '0' ≤ c && c ≤ '9' then some (c.toNat - 48) else none

/-- Value of a non-empty decimal digit string. -/
def digitsVal (cs : List Char) : Option Nat :=
  match cs with
  | [] => none
  | _ => cs.foldlM (fun acc c => (charDigit c).map (fun d => acc * 10 + d)) 0

/-- Signed integer value of a character list: optional sign then digits. -/
def pyIntOfChars : List Char → Option Int
  | '-' :: cs => (digitsVal cs).map (fun n => -(n : Int))
  | '+' :: cs => (digitsVal cs).map (fun n => (n : Int))
  | cs => (digitsVal cs).map (fun n => (n : Int))

/-- Python `int(...)` applied to a string: optional sign and digits after
stripping surrounding whitespace, `none` models a raised ValueError. -/
def pyIntOfStr (str : String) : Option Int :=
  pyIntOfChars (((str.data.dropWhile isSpaceChar).reverse.dropWhile
    isSpaceChar).reverse)

/-- Python `int(...)` applied to a dynamically typed value; `none` models a
raised exception (for floats it truncates toward zero). -/
def pyIntOfVal : PVal → Option Int
  | .i v => some v
  | .s v => pyIntOfStr v
  | .b v => some (if v then 1 else 0)
  | .q v => some (v.num.tdiv (v.den : Int))

/-- Python `str(...)` of a value, used to form collection keys. -/
def keyStr : PVal → String
  | .s v => v
  | .i v => toString v
  | .b v => if v then "True" else "False"
  | .q v => toString v

/-- Value viewed as a string, `none` when it is not one (models the
AttributeError / TypeError a string method would raise). -/
def asStr : PVal → Option String
  | .s v => some v
  | _ => none

/-- Value viewed as a number for float arithmetic. -/
def asRat : PVal → Option ℚ
  | .i v => some (v : ℚ)
  | .q v => some v
  | .b v => some (if v then 1 else 0)
  | .s _ => none

/-- Round-half-to-even on rationals, the rounding used by Python's `round`. -/
def bankersRound (x : ℚ) : ℤ :=
  let f := ⌊x⌋
  let r := x - (f : ℚ)
  if r < 1/2 then f
  else if 1/2 < r then f + 1
  else if f % 2 = 0 then f else f + 1

/-- Python `round(x, 1)`: round half to even at one decimal place. -/
def pythonRound1 (x : ℚ) : ℚ :=
  ((bankersRound (x * 10) : ℤ) : ℚ) / 10

/-- One field specification entry of the normalization engine:
a name, an optional declared type (only "bool" occurs), and an optional
default value. -/
structure ValSpec where
  name : String
  vtype : Option String := none
  dflt : Option PVal := none
deriving DecidableEq

/-- One row-filtering rule: discard a raw row whose named field equals the
forbidden value. -/
structure SkipRule where
  name : String
  value : PVal
deriving DecidableEq

/-- Modelled from the spec: the boolean coercion of the normalization engine
(module apiparser, not part of the core source file) — truthy/falsy
representations, including the strings "true"/"false"/"1"/"0" and
numeric zero versus non-zero, become booleans. -/
def coerceBool : PVal → Bool
  | .b v => v
  | .i v => v != 0
  | .q v => v != 0
  | .s v => !(v == "false" || v == "0" || v == "")

/-- A raw string value that counts as empty/missing for default substitution. -/
def isEmptyVal : PVal → Bool
  | .s v => v == ""
  | _ => false

/-- Modelled from the spec: building one output field from a raw row —
read the raw value by name; if absent use the default; booleans are coerced;
otherwise the value passes through, with the default substituted when the raw
value is itself empty. `none` means the field is absent from the output
(no value and no default). -/
def buildField (row : Record) (sp : ValSpec) : Option PVal :=
  match getField row sp.name with
  | some v =>
      if sp.vtype == some "bool" then some (.b (coerceBool v))
      else if isEmptyVal v then
        match sp.dflt with
        | some d => some d
        | none => some v
      else some v
  | none => sp.dflt

/-- Modelled from the spec: build the output record for one surviving raw row
by applying every field specification in order. -/
def buildRecord (specs : List ValSpec) (row : Record) : Record :=
  specs.foldl (fun acc sp =>
    match buildField row sp with
    | some v => acc ++ [(sp.name, v)]
    | none => acc) []

/-- Modelled from the spec: the value of one "ensure" field — carried over
from the prior record for the same key when already present there, otherwise
the ensure default. -/
def ensureField (old : Option Record) (sp : ValSpec) : Option PVal :=
  match old.bind (fun o => getField o sp.name) with
  | some v => some v
  | none => sp.dflt

/-- Modelled from the spec: append every ensure field to a freshly built
record. -/
def applyEnsure (specs : List ValSpec) (old : Option Record) (r : Record) : Record :=
  specs.foldl (fun acc sp =>
    match ensureField old sp with
    | some v => acc ++ [(sp.name, v)]
    | none => acc) r

/-- Modelled from the spec: a raw row is discarded when any skip rule's named
field equals the forbidden value. -/
def skipRow (skips : List SkipRule) (row : Record) : Bool :=
  skips.any (fun sk => getField row sk.name == some sk.value)

/-- Modelled from the spec: normalize one raw row of a keyed collection:
rows lacking the key field produce nothing, otherwise the built record is
stored under the stringified key with ensure fields carried over from the
prior record under the same key. -/
def normalizeRow (data : RecordMap) (key : String) (vals ens : List ValSpec)
    (row : Record) : Option (String × Record) :=
  (getField row key).map (fun kv =>
    let k := keyStr kv
    (k, applyEnsure ens (lookupRec data k) (buildRecord vals row)))

/-- Modelled from the spec: parse_api with a key field — the result holds
exactly the keys produced by the surviving new raw rows (stale keys from the
prior data are dropped, new keys added), each mapped to its normalized
record. -/
def normalizeKeyed (data : RecordMap) (source : List Record) (key : String)
    (vals ens : List ValSpec) (skips : List SkipRule) : RecordMap :=
  (source.filter (fun row => !(skipRow skips row))).filterMap
    (normalizeRow data key vals ens)

/-- Modelled from the spec: parse_api without a key field — an absent source
leaves the existing data unchanged, otherwise the single raw row is built
into a record with ensure fields carried over from the existing data. -/
def normalizeSingle (data : Record) (source : Option Record)
    (vals ens : List ValSpec) : Record :=
  match source with
  | none => data
  | some row => applyEnsure ens (some data) (buildRecord vals row)

/-! ### get_hwinfo: field specs and derived-field computation -/

/-- Field specs of the hardware-info fetch (omv_controller.get_hwinfo). -/
def hwinfoVals : List ValSpec := [
  { name := "hostname", dflt := some (.s "unknown") },
  { name := "version", dflt := some (.s "unknown") },
  { name := "cpuUsage", dflt := some (.i 0) },
  { name := "memTotal", dflt := some (.i 0) },
  { name := "memUsed", dflt := some (.i 0) },
  { name := "uptime", dflt := some (.s "0 days 0 hours 0 minutes 0 seconds") },
  { name := "configDirty", vtype := some "bool", dflt := some (.b false) },
  { name := "rebootRequired", vtype := some "bool", dflt := some (.b false) },
  { name := "pkgUpdatesAvailable", vtype := some "bool", dflt := some (.b false) }]

/-- Ensure specs of the hardware-info fetch. -/
def hwinfoEnsure : List ValSpec := [{ name := "memUsage", dflt := some (.i 0) }]

/-- `%02d` formatting of a non-negative count. -/
def pad2 (n : Nat) : String :=
  if n < 10 then "0" ++ toString n else toString n

/-- The "D days H hours M minutes S seconds" breakdown which get_hwinfo
computes from a raw signed integer second count: the absolute value is broken
into fields (Python float divisions truncated by the `%d` format, which for a
non-negative dividend equals natural division) and "-" prefixes the whole
string when the count is negative. -/
def uptimeBreakdown (n : Int) : String :=
  let pos := n.natAbs
  let day := pos / 86400
  let rem := pos % 86400
  let hour := rem / 3600
  let rem2 := rem % 3600
  let mins := rem2 / 60
  let secs := rem2 % 60
  let res := toString day ++ " days " ++ pad2 hour ++ " hours " ++ pad2 mins
    ++ " minutes " ++ pad2 secs ++ " seconds"
  if n < 0 then "-" ++ res else res

/-- The token list get_hwinfo parses the uptime components from: when the
numeric segment of the version string before the first "." exceeds 5, the raw
uptime is read as an integer and formatted into the breakdown first; otherwise
the raw uptime string is split as-is. `none` models a raised exception. -/
def hwUptimeTokens (rec : Record) : Option (List String) := do
  let vv ← getField rec "version"
  let vs ← asStr vv
  let major ← pyIntOfStr ((pySplit vs '.').headD "")
  let uv ← getField rec "uptime"
  if major > 5 then do
    let n ← pyIntOfVal uv
    pure (pySplit (uptimeBreakdown n) ' ')
  else do
    let us ← asStr uv
    pure (pySplit us ' ')

/-- Total uptime seconds: tokens 0, 2, 4 and 6 of the breakdown are parsed as
integers and summed as days, hours, minutes and seconds. -/
def hwUptimeTotal (rec : Record) : Option Int := do
  let toks ← hwUptimeTokens rec
  let d ← toks[0]? >>= pyIntOfStr
  let h ← toks[2]? >>= pyIntOfStr
  let m ← toks[4]? >>= pyIntOfStr
  let sc ← toks[6]? >>= pyIntOfStr
  pure (d * 86400 + h * 3600 + m * 60 + sc)

/-- The derived-field computation of get_hwinfo (source lines 197-236),
performed only while connected: uptimeEpoch is the current wall-clock time
(microseconds already truncated, modelled as integer seconds `now`) minus the
total uptime seconds — the source renders this instant as an ISO-8601
local-time string through the external datetime layer — then cpuUsage and the
memory-usage percentage are rounded to one decimal place. `none` models a
raised exception. -/
def hwDerive (rec : Record) (now : Int) : Option Record := do
  let total ← hwUptimeTotal rec
  let rec1 := setField rec "uptimeEpoch" (PVal.i (now - total))
  let cpu ← getField rec "cpuUsage" >>= asRat
  let rec2 := setField rec1 "cpuUsage" (PVal.q (pythonRound1 cpu))
  let u ← getField rec "memUsed" >>= pyIntOfVal
  let t ← getField rec "memTotal" >>= pyIntOfVal
  let mem : ℚ := if 0 < t then (u : ℚ) / (t : ℚ) * 100 else 0
  pure (setField rec2 "memUsage" (PVal.q (pythonRound1 mem)))

/-- get_hwinfo: normalize the raw System.getInformation response into the
hwinfo record, then, only if still connected, compute the derived fields. -/
def get_hwinfo (connected : Bool) (data : Record) (source : Option Record)
    (now : Int) : Option Record :=
  let r := normalizeSingle data source hwinfoVals hwinfoEnsure
  if connected then hwDerive r now else some r

/-! ### get_disk -/

/-- Field specs of the disk-inventory fetch (omv_controller.get_disk). -/
def diskVals : List ValSpec := [
  { name := "devicename" },
  { name := "canonicaldevicefile" },
  { name := "size", dflt := some (.s "unknown") },
  { name := "israid", vtype := some "bool", dflt := some (.b false) },
  { name := "isroot", vtype := some "bool", dflt := some (.b false) }]

/-- Ensure specs of the disk-inventory fetch: device-identity facts and the
whitelisted SMART counters, created once with default "unknown" and carried
over on later cycles. -/
def diskEnsure : List ValSpec := [
  { name := "devicemodel", dflt := some (.s "unknown") },
  { name := "serialnumber", dflt := some (.s "unknown") },
  { name := "firmwareversion", dflt := some (.s "unknown") },
  { name := "sectorsize", dflt := some (.s "unknown") },
  { name := "rotationrate", dflt := some (.s "unknown") },
  { name := "writecacheis", dflt := some (.s "unknown") },
  { name := "smartsupportis", dflt := some (.s "unknown") },
  { name := "Raw_Read_Error_Rate", dflt := some (.s "unknown") },
  { name := "Spin_Up_Time", dflt := some (.s "unknown") },
  { name := "Start_Stop_Count", dflt := some (.s "unknown") },
  { name := "Reallocated_Sector_Ct", dflt := some (.s "unknown") },
  { name := "Seek_Error_Rate", dflt := some (.s "unknown") },
  { name := "Load_Cycle_Count", dflt := some (.s "unknown") },
  { name := "Temperature_Celsius", dflt := some (.s "unknown") },
  { name := "UDMA_CRC_Error_Count", dflt := some (.s "unknown") },
  { name := "Multi_Zone_Error_Rate", dflt := some (.s "unknown") }]

/-- get_disk: keyed normalization of the DiskMgmt.enumerateDevices response
under key "devicename". -/
def get_disk (data : RecordMap) (source : List Record) : RecordMap :=
  normalizeKeyed data source "devicename" diskVals diskEnsure []

/-! ### get_fs -/

/-- Field specs of the filesystem-inventory fetch (omv_controller.get_fs). -/
def fsVals : List ValSpec := [
  { name := "uuid" },
  { name := "parentdevicefile", dflt := some (.s "unknown") },
  { name := "label", dflt := some (.s "unknown") },
  { name := "type", dflt := some (.s "unknown") },
  { name := "mountpoint", dflt := some (.s "unknown") },
  { name := "available", dflt := some (.s "unknown") },
  { name := "size", dflt := some (.s "unknown") },
  { name := "percentage", dflt := some (.s "unknown") },
  { name := "_readonly", vtype := some "bool", dflt := some (.b false) },
  { name := "_used", vtype := some "bool", dflt := some (.b false) }]

/-- Skip rules of the filesystem-inventory fetch: swap and optical-media
filesystems are excluded. -/
def fsSkips : List SkipRule := [
  { name := "type", value := .s "swap" },
  { name := "type", value := .s "iso9660" }]

/-- The GiB conversion get_fs applies to every normalized filesystem record:
`int(...)` of the size and available fields divided by 1073741824 and rounded
to one decimal place. `none` models the ValueError raised when a field holds a
non-numeric string such as the default "unknown". -/
def fsGiB (r : Record) : Option Record := do
  let szV ← getField r "size"
  let sz ← pyIntOfVal szV
  let r1 := setField r "size" (PVal.q (pythonRound1 ((sz : ℚ) / 1073741824)))
  let avV ← getField r1 "available"
  let av ← pyIntOfVal avV
  pure (setField r1 "available" (PVal.q (pythonRound1 ((av : ℚ) / 1073741824))))

/-- get_fs: keyed normalization of FileSystemMgmt.enumerateFilesystems under
key "uuid" followed by the unconditional GiB conversion of every record;
`none` models a raised exception. -/
def get_fs (data : RecordMap) (source : List Record) : Option RecordMap :=
  let parsed := normalizeKeyed data source "uuid" fsVals [] fsSkips
  parsed.mapM (fun p => (fsGiB p.2).map (fun r => (p.1, r)))

/-! ### get_smart -/

/-- Field specs of the Smart.getInformation sub-query. -/
def smartInfoVals : List ValSpec := [
  { name := "devicemodel", dflt := some (.s "unknown") },
  { name := "serialnumber", dflt := some (.s "unknown") },
  { name := "firmwareversion", dflt := some (.s "unknown") },
  { name := "sectorsize", dflt := some (.s "unknown") },
  { name := "rotationrate", dflt := some (.s "unknown") },
  { name := "writecacheis", vtype := some "bool", dflt := some (.b false) },
  { name := "smartsupportis", vtype := some "bool", dflt := some (.b false) }]

/-- Field specs of the Smart.getAttributes sub-query (keyed by "attrname"). -/
def smartAttrVals : List ValSpec := [
  { name := "attrname" },
  { name := "threshold", dflt := some (.i 0) },
  { name := "rawvalue", dflt := some (.i 0) }]

/-- The fixed whitelist of SMART attribute counters copied onto disk
records. -/
def smartWhitelist : List String := [
  "Raw_Read_Error_Rate",
  "Spin_Up_Time",
  "Start_Stop_Count",
  "Reallocated_Sector_Ct",
  "Seek_Error_Rate",
  "Load_Cycle_Count",
  "Temperature_Celsius",
  "UDMA_CRC_Error_Count",
  "Multi_Zone_Error_Rate"]

/-- The seven static attributes copied from the getInformation result onto
the disk record. -/
def smartStaticNames : List String := [
  "devicemodel", "serialnumber", "firmwareversion", "sectorsize",
  "rotationrate", "writecacheis", "smartsupportis"]

/-- The raw-value reduction applied to whitelisted counters: a string value
containing a space is replaced by its piece before the first space, every
other value passes through unchanged. -/
def stripUnits : PVal → PVal
  | .s str =>
      if str.data.contains ' ' then .s ((pySplit str ' ').headD "") else .s str
  | v => v

/-- Transport behaviour the SMART enrichment sees: the getInformation
response for a canonical device file (none when the transport returned
nothing) and the getAttributes row list. -/
structure SmartEnv where
  smartInfo : String → Option Record
  smartAttrs : String → List Record

/-- Copy named fields from a source record onto a destination record;
`none` models the KeyError raised when a name is absent from the source. -/
def copyFields (names : List String) (src dst : Record) : Option Record :=
  names.foldlM (fun acc n => (getField src n).map (setField acc n)) dst

/-- The whitelist pass of get_smart: each whitelisted attribute present in
the normalized getAttributes collection has its raw value reduced by
`stripUnits` and written onto the disk record under the attribute's own
name. -/
def smartApplyWhitelist (attrs : RecordMap) (rec : Record) : Record :=
  smartWhitelist.foldl (fun acc n =>
    match lookupRec attrs n with
    | some arec =>
        match getField arec "rawvalue" with
        | some rv => setField acc n (stripUnits rv)
        | none => acc
    | none => acc) rec

/-- The two SMART sub-queries of get_smart for one eligible disk (source
lines 288-356): the getInformation response is normalized; an empty result
abandons the disk after that single query; otherwise the seven static fields
are copied onto the disk record, the getAttributes response is normalized
under key "attrname" (an empty result abandons the disk after the two
queries), and the whitelist pass is applied. `none` models a raised
exception. -/
def smart_fetch (env : SmartEnv) (rec : Record) (cdf : String) :
    Option (Record × List (String × String)) :=
  let info := normalizeSingle [] (env.smartInfo cdf) smartInfoVals []
  if info.isEmpty then some (rec, [("getInformation", cdf)])
  else do
    let rec1 ← copyFields smartStaticNames info rec
    let attrs := normalizeKeyed [] (env.smartAttrs cdf) "attrname"
      smartAttrVals [] []
    if attrs.isEmpty then
      some (rec1, [("getInformation", cdf), ("getAttributes", cdf)])
    else
      some (smartApplyWhitelist attrs rec1,
        [("getInformation", cdf), ("getAttributes", cdf)])

/-- The prefix filter of get_smart (source lines 279-286): device names
starting with "mmcblk", "sr" or "bcache" are skipped with no query; all other
disks have their canonical device file read and the sub-queries issued. -/
def smart_core (env : SmartEnv) (rec : Record) (dn : String) :
    Option (Record × List (String × String)) :=
  if "mmcblk".data.isPrefixOf dn.data || "sr".data.isPrefixOf dn.data
      || "bcache".data.isPrefixOf dn.data then
    some (rec, [])
  else do
    let cdfV ← getField rec "canonicaldevicefile"
    let cdf ← asStr cdfV
    smart_fetch env rec cdf

/-- Processing of one disk record by get_smart (source lines 278-356).
Returns the updated record together with the list of issued sub-queries
(method name, canonical device file); `none` models a raised exception on a
malformed record. -/
def smart_one (env : SmartEnv) (rec : Record) :
    Option (Record × List (String × String)) := do
  let dnV ← getField rec "devicename"
  let dn ← asStr dnV
  smart_core env rec dn

/-- get_smart: every disk record in the snapshot is processed in order; the
result is the updated disk collection together with all issued sub-queries. -/
def get_smart (env : SmartEnv) (disks : RecordMap) :
    Option (RecordMap × List (String × String)) :=
  disks.foldlM (fun acc p =>
    (smart_one env p.2).map (fun r => (acc.1 ++ [(p.1, r.1)], acc.2 ++ r.2)))
    ([], [])

/-! ### The two update cycles as state-and-trace transition functions -/

/-- Observable events of an update cycle: acquiring and releasing the shared
exclusive token, a completed sub-fetch, and the dispatcher change
notification. -/
inductive Ev where
  | acquire
  | release
  | notify
  | fetch (name : String)
deriving DecidableEq

/-- How a cycle coroutine finishes: a normal return, or an exception
propagating out of it. -/
inductive Outcome where
  | returned
  | raised
deriving DecidableEq

/-- One execution environment for the two cycles over an abstract snapshot
type: whether each bounded token wait succeeds, whether the transport
reported a reconnection, the result of each `connected()` check, whether each
sub-fetch raises, and the snapshot mutation each completed sub-fetch
performs. -/
structure Env (σ : Type) where
  hwAcquireOk : Bool := true
  updAcquireOk : Bool := true
  hasReconnected : Bool := false
  connF1 : Bool := true
  connF2 : Bool := true
  connS1 : Bool := true
  connS2 : Bool := true
  connS3 : Bool := true
  raiseHwF : Bool := false
  raisePlugin : Bool := false
  raiseDisk : Bool := false
  raiseHwS : Bool := false
  raiseFs : Bool := false
  raiseSmart : Bool := false
  raiseService : Bool := false
  mHw : σ → σ := id
  mPlugin : σ → σ := id
  mDisk : σ → σ := id
  mFs : σ → σ := id
  mSmart : σ → σ := id
  mService : σ → σ := id

/-- A conditionally executed sub-fetch: skipped when its connectivity guard
is false, raising (error, carrying the state and trace so far) when its body
raises, otherwise mutating the snapshot and appending its fetch event. -/
def condFetch {σ : Type} (c rf : Bool) (m : σ → σ) (name : String)
    (acc : σ × List Ev) : Except (σ × List Ev) (σ × List Ev) :=
  if c then
    if rf then .error acc
    else .ok (m acc.1, acc.2 ++ [Ev.fetch name])
  else .ok acc

/-- async_hwinfo_update (source lines 125-138): a bounded wait for the token
(silent return on timeout), then get_hwinfo unconditionally, get_plugin and
get_disk each guarded by a fresh `connected()` check, then the release.
There is no try/finally: an exception propagates before the release
executes. -/
def async_hwinfo_update {σ : Type} (e : Env σ) (s : σ) : σ × List Ev × Outcome :=
  if e.hwAcquireOk = false then (s, [], .returned)
  else
    let run : Except (σ × List Ev) (σ × List Ev) := do
      let a1 ← condFetch true e.raiseHwF e.mHw "get_hwinfo" (s, [Ev.acquire])
      let a2 ← condFetch e.connF1 e.raisePlugin e.mPlugin "get_plugin" a1
      condFetch e.connF2 e.raiseDisk e.mDisk "get_disk" a2
    match run with
    | .error p => (p.1, p.2, .raised)
    | .ok p => (p.1, p.2 ++ [Ev.release], .returned)

/-- async_update (source lines 151-170): when the transport reports a
reconnection the fast cycle is awaited first (its exception would propagate),
then a bounded wait for the token (silent return on timeout), then
get_hwinfo, get_fs, get_smart and get_service with fresh `connected()`
guards, then the dispatcher notification followed by the release. There is
no try/finally: an exception propagates before notification and release. -/
def async_update {σ : Type} (e : Env σ) (s : σ) : σ × List Ev × Outcome :=
  match (if e.hasReconnected then async_hwinfo_update e s else (s, [], .returned)) with
  | (s0, ev0, Outcome.raised) => (s0, ev0, .raised)
  | (s0, ev0, Outcome.returned) =>
    if e.updAcquireOk = false then (s0, ev0, .returned)
    else
      let run : Except (σ × List Ev) (σ × List Ev) := do
        let a1 ← condFetch true e.raiseHwS e.mHw "get_hwinfo" (s0, ev0 ++ [Ev.acquire])
        let a2 ← condFetch e.connS1 e.raiseFs e.mFs "get_fs" a1
        let a3 ← condFetch e.connS2 e.raiseSmart e.mSmart "get_smart" a2
        condFetch e.connS3 e.raiseService e.mService "get_service" a3
      match run with
      | .error p => (p.1, p.2, .raised)
      | .ok p => (p.1, p.2 ++ [Ev.notify, Ev.release], .returned)

/-- The number of notifications emitted strictly before the first release in
a trace. -/
def notifyBeforeFirstRelease (t : List Ev) : Nat :=
  (t.takeWhile (fun ev => ev != Ev.release)).count Ev.notify

/-- No sub-fetch of an execution environment raises. -/
def noRaises {σ : Type} (e : Env σ) : Prop :=
  e.raiseHwF = false ∧ e.raisePlugin = false ∧ e.raiseDisk = false ∧
  e.raiseHwS = false ∧ e.raiseFs = false ∧ e.raiseSmart = false ∧
  e.raiseService = false

/-! ### Coordinator timers and reset (async_init / async_reset) -/

/-- Coordinator bookkeeping relevant to init and reset: the two interval
timers (the registered interval in seconds, none when cancelled or never
registered), the currently registered listener identifiers, and the
listeners whose unsubscribe callbacks have been invoked. -/
structure CoordState where
  updTimer : Option Nat := none
  hwTimer : Option Nat := none
  listeners : List Nat := []
  unsubbed : List Nat := []
deriving DecidableEq

/-- async_init (source lines 80-86): registers the 60-second slow-cycle timer
and the 3600-second fast-cycle timer. -/
def async_init (st : CoordState) : CoordState :=
  { st with updTimer := some 60, hwTimer := some 3600 }

/-- Invoking one listener's unsubscribe callback. -/
def unsubListener (st : CoordState) (l : Nat) : CoordState :=
  { st with unsubbed := st.unsubbed ++ [l] }

/-- async_reset (source lines 99-105): invokes every registered listener's
unsubscribe callback, clears the listener list and returns True. The timer
handles are not touched. -/
def async_reset (st : CoordState) : CoordState × Bool :=
  let st1 := st.listeners.foldl unsubListener st
  ({ st1 with listeners := [] }, true)

/-! ### Concrete inputs used by the claim theorems and witnesses -/

/-- A fully successful slow-cycle environment: both token waits succeed, no
reconnection, all connectivity checks true, no sub-fetch raises. -/
def envSlowOk : Env Nat := {}

/-- A fast-cycle environment whose first sub-fetch raises after the token was
acquired. -/
def envRaiseFast : Env Nat := { raiseHwF := true }

/-- A slow-cycle environment whose first sub-fetch raises after the token was
acquired. -/
def envRaiseSlow : Env Nat := { raiseHwS := true }

/-- A reconnection was reported, the nested fast cycle runs (and mutates the
snapshot), and then the slow cycle's own token wait times out. -/
def envResyncTimeout : Env Nat :=
  { hasReconnected := true, updAcquireOk := false, mHw := fun n => n + 1 }

/-- A reconnection was reported but the nested fast cycle's token wait times
out, so the fast fetch set is skipped entirely while the slow cycle
proceeds. -/
def envNestedTimeout : Env Nat := { hasReconnected := true, hwAcquireOk := false }

/-- A raw disk row produced by DiskMgmt.enumerateDevices. -/
def diskRow (dn : String) : Record :=
  [("devicename", PVal.s dn), ("canonicaldevicefile", PVal.s ("/dev/" ++ dn)),
   ("size", PVal.s "1000")]

/-- Previous-cycle disk data with keys A, B, C; B carries an enriched
devicemodel. -/
def dataABC : RecordMap :=
  [("A", [("devicename", PVal.s "A")]),
   ("B", [("devicename", PVal.s "B"), ("devicemodel", PVal.s "ModelB")]),
   ("C", [("devicename", PVal.s "C")])]

/-- The old record stored under key B in `dataABC`. -/
def oldB : Record := [("devicename", PVal.s "B"), ("devicemodel", PVal.s "ModelB")]

/-- New raw rows producing keys B, C, D. -/
def srcBCD : List Record := [diskRow "B", diskRow "C", diskRow "D"]

/-- The merged record for key B after normalizing `srcBCD` against
`dataABC`. -/
def recBmerged : Record :=
  applyEnsure diskEnsure (lookupRec dataABC "B") (buildRecord diskVals (diskRow "B"))

/-- A System.getInformation row for a major-6 device with a raw integer
uptime. -/
def rowHw6 (u : Int) : Record :=
  [("version", PVal.s "6.0.0"), ("uptime", PVal.i u), ("cpuUsage", PVal.i 0),
   ("memUsed", PVal.i 0), ("memTotal", PVal.i 0)]

/-- A System.getInformation row for a major-5 device with a pre-formatted
uptime string. -/
def rowHw5 : Record :=
  [("version", PVal.s "5.0.0"),
   ("uptime", PVal.s "1 days 01 hours 01 minutes 01 seconds"),
   ("cpuUsage", PVal.i 0), ("memUsed", PVal.i 0), ("memTotal", PVal.i 0)]

/-- A System.getInformation row with the given memUsed and memTotal. -/
def rowMem (u t : Int) : Record :=
  [("version", PVal.s "5.0.0"),
   ("uptime", PVal.s "0 days 0 hours 0 minutes 0 seconds"),
   ("cpuUsage", PVal.i 0), ("memUsed", PVal.i u), ("memTotal", PVal.i t)]

/-- A Smart.getInformation response row. -/
def smartInfoRow : Record :=
  [("devicemodel", PVal.s "WD10"), ("serialnumber", PVal.s "SN1"),
   ("firmwareversion", PVal.s "F1"), ("sectorsize", PVal.s "512"),
   ("rotationrate", PVal.i 7200), ("writecacheis", PVal.b true),
   ("smartsupportis", PVal.b true)]

/-- Smart.getAttributes response rows: one raw value with a parenthesized
tail, one with a units suffix, one plain integer. -/
def smartAttrRows : List Record :=
  [[("attrname", PVal.s "Temperature_Celsius"),
    ("rawvalue", PVal.s "35 (Min/Max 20/45)")],
   [("attrname", PVal.s "Reallocated_Sector_Ct"), ("rawvalue", PVal.s "8 sectors")],
   [("attrname", PVal.s "Spin_Up_Time"), ("rawvalue", PVal.i 150)]]

/-- A transport that answers SMART queries only for /dev/sda. -/
def smartEnvEx : SmartEnv :=
  { smartInfo := fun cdf => if cdf == "/dev/sda" then some smartInfoRow else none,
    smartAttrs := fun cdf => if cdf == "/dev/sda" then smartAttrRows else [] }

/-- The disk snapshot fed to the SMART enrichment example: an ordinary disk
and a flash device that must be skipped. -/
def disksEx : RecordMap :=
  [("sda", [("devicename", PVal.s "sda"), ("canonicaldevicefile", PVal.s "/dev/sda"),
            ("Temperature_Celsius", PVal.s "unknown")]),
   ("mmcblk0", [("devicename", PVal.s "mmcblk0"),
                ("canonicaldevicefile", PVal.s "/dev/mmcblk0")])]

/-- A disk whose getInformation query will return nothing. -/
def diskSdb : Record :=
  [("devicename", PVal.s "sdb"), ("canonicaldevicefile", PVal.s "/dev/sdb")]

/-- The mmcblk0 record of `disksEx`. -/
def diskMmc : Record :=
  [("devicename", PVal.s "mmcblk0"), ("canonicaldevicefile", PVal.s "/dev/mmcblk0")]

/-- A coordinator state with two registered listeners and no timers yet. -/
def stListeners : CoordState := { listeners := [1, 2] }

/-- Both token waits time out and no reconnection was reported. -/
def envTimeoutPlain : Env Nat := { hwAcquireOk := false, updAcquireOk := false }

/-! ### Helper lemmas -/

theorem getField_append (r1 r2 : Record) (n : String) :
    getField (r1 ++ r2) n =
      match getField r1 n with
      | some v => some v
      | none => getField r2 n := by
  simp only [getField, List.find?_append]
  cases h : r1.find? (fun p => p.1 == n) <;> simp

theorem getField_applyEnsure_of_some (specs : List ValSpec) (old : Option Record)
    (acc : Record) (n : String) (v : PVal) (h : getField acc n = some v) :
    getField (applyEnsure specs old acc) n = some v := by
  induction specs generalizing acc with
  | nil => exact h
  | cons sp rest ih =>
    show getField (applyEnsure rest old _) n = some v
    cases hef : ensureField old sp with
    | none => simpa [applyEnsure, hef] using ih acc h
    | some w =>
      simp only [applyEnsure, List.foldl_cons, hef]
      exact ih _ (by rw [getField_append, h])

theorem getField_buildRecord_aux (specs : List ValSpec) (row : Record) (n : String) :
    ∀ acc : Record, specs.all (fun sp => !(sp.name == n)) = true →
    getField acc n = none →
    getField (specs.foldl (fun acc sp =>
      match buildField row sp with
      | some v => acc ++ [(sp.name, v)]
      | none => acc) acc) n = none := by
  induction specs with
  | nil => intro acc _ hacc; exact hacc
  | cons sp rest ih =>
    intro acc h hacc
    simp only [List.all_cons, Bool.and_eq_true] at h
    obtain ⟨hsp, hrest⟩ := h
    simp only [List.foldl_cons]
    cases hbf : buildField row sp with
    | none => simp only [hbf]; exact ih acc hrest hacc
    | some v =>
      simp only [hbf]
      refine ih _ hrest ?_
      rw [getField_append, hacc]
      have hsp2 : (sp.name == n) = false := by simpa using hsp
      simp [getField, List.find?, hsp2]

theorem foldl_unsubListener (ls : List Nat) (st : CoordState) :
    ls.foldl unsubListener st = { st with unsubbed := st.unsubbed ++ ls } := by
  induction ls generalizing st with
  | nil => simp
  | cons l rest ih => simp [unsubListener, ih]

theorem fast_no_notify {σ : Type} (e : Env σ) (s : σ) :
    (async_hwinfo_update e s).2.1.count Ev.notify = 0 := by
  obtain ⟨hA, uA, hR, c1, c2, d1, d2, d3, r1, r2, r3, r4, r5, r6, r7,
    m1, m2, m3, m4, m5, m6⟩ := e
  cases hA <;> cases r1 <;> cases c1 <;> cases r2 <;> cases c2 <;> cases r3 <;> rfl

theorem optionBind_some {α β : Type} (a : α) (f : α → Option β) :
    (some a >>= f : Option β) = f a := rfl

theorem exceptBind_ok {ε α β : Type} (a : α) (f : α → Except ε β) :
    (Except.ok a >>= f : Except ε β) = f a := rfl

theorem exceptBind_error {ε α β : Type} (err : ε) (f : α → Except ε β) :
    (Except.error err >>= f : Except ε β) = Except.error err := rfl

theorem async_hwinfo_update_norm {σ : Type} (e : Env σ) (s : σ)
    (h1 : e.raiseHwF = false) (h2 : e.raisePlugin = false)
    (h3 : e.raiseDisk = false) :
    async_hwinfo_update e s =
      if e.hwAcquireOk then
        ((if e.connF2 then e.mDisk else id)
           ((if e.connF1 then e.mPlugin else id) (e.mHw s)),
         [Ev.acquire, Ev.fetch "get_hwinfo"]
           ++ (if e.connF1 then [Ev.fetch "get_plugin"] else [])
           ++ (if e.connF2 then [Ev.fetch "get_disk"] else [])
           ++ [Ev.release],
         Outcome.returned)
      else (s, [], Outcome.returned) := by
  rcases hA : e.hwAcquireOk <;> rcases c1 : e.connF1 <;> rcases c2 : e.connF2 <;>
    simp [async_hwinfo_update, condFetch, hA, c1, c2, h1, h2, h3] <;> rfl

theorem async_update_norm {σ : Type} (e : Env σ) (s : σ)
    (hnr : noRaises e) (hA : e.updAcquireOk = true) :
    async_update e s =
      ((if e.connS3 then e.mService else id)
         ((if e.connS2 then e.mSmart else id)
           ((if e.connS1 then e.mFs else id)
             (e.mHw (if e.hasReconnected then (async_hwinfo_update e s).1 else s)))),
       (if e.hasReconnected then (async_hwinfo_update e s).2.1 else [])
         ++ [Ev.acquire, Ev.fetch "get_hwinfo"]
         ++ (if e.connS1 then [Ev.fetch "get_fs"] else [])
         ++ (if e.connS2 then [Ev.fetch "get_smart"] else [])
         ++ (if e.connS3 then [Ev.fetch "get_service"] else [])
         ++ [Ev.notify, Ev.release],
       Outcome.returned) := by
  obtain ⟨n1, n2, n3, n4, n5, n6, n7⟩ := hnr
  have hfast := async_hwinfo_update_norm e s n1 n2 n3
  rcases hR : e.hasReconnected <;> rcases hAf : e.hwAcquireOk <;>
    rcases d1 : e.connS1 <;> rcases d2 : e.connS2 <;> rcases d3 : e.connS3 <;>
    simp only [hR, hAf, d1, d2, d3, if_true, if_false, Bool.true_eq_false,
      Bool.false_eq_true, ite_true, ite_false] at hfast ⊢ <;>
    simp [async_update, condFetch, hfast, hR, hAf, d1, d2, d3, hA, n4, n5, n6, n7,
      exceptBind_ok, exceptBind_error]

/-! ### Claim theorems -/

/-- C10: get_fs raises on a reachable input — a raw row that omits "size"
(or "available") keeps the declared default string "unknown", and the
unconditional int-conversion of the GiB pass then fails; likewise for a
non-numeric supplied value. -/
theorem fs_gib_raises_on_missing_size :
    get_fs [] [[("uuid", PVal.s "u1")]] = none ∧
    get_fs [] [[("uuid", PVal.s "u2"), ("size", PVal.s "12x"),
                ("available", PVal.s "5")]] = none := by
  constructor <;> rfl

/-- C2 (code bug evaluated at the failing input): when a sub-fetch raises
after the exclusive token was acquired, both cycles propagate the exception
without ever emitting a release — the token stays held. -/
theorem raise_leaves_token_held :
    async_hwinfo_update envRaiseFast 0 = (0, [Ev.acquire], Outcome.raised) ∧
    async_update envRaiseSlow 0 = (0, [Ev.acquire], Outcome.raised) ∧
    (async_hwinfo_update envRaiseFast 0).2.1.count Ev.release = 0 ∧
    (async_update envRaiseSlow 0).2.1.count Ev.release = 0 := by
  refine ⟨rfl, rfl, rfl, rfl⟩

/-- C1 counterexample: in a fully successful slow cycle the single change
notification is emitted strictly before the exclusive token's release, not
after it as the claim states. -/
theorem notify_precedes_release_cex :
    (async_update envSlowOk 0).2.1.count Ev.notify = 1 ∧
    notifyBeforeFirstRelease (async_update envSlowOk 0).2.1 = 1 ∧
    (async_update envSlowOk 0).2.2 = Outcome.returned := by
  refine ⟨rfl, rfl, rfl⟩

/-- C5 counterexample: with a reported reconnection the slow cycle performs
the resync (mutating the snapshot) before its own token wait, so a cycle
whose token wait then times out has already mutated the snapshot. -/
theorem lock_timeout_after_resync_mutation_cex :
    envResyncTimeout.updAcquireOk = false ∧
    async_update envResyncTimeout 0 =
      (1, [Ev.acquire, Ev.fetch "get_hwinfo", Ev.fetch "get_plugin",
           Ev.fetch "get_disk", Ev.release], Outcome.returned) ∧
    (async_update envResyncTimeout 0).1 ≠ 0 := by
  refine ⟨rfl, rfl, by decide⟩

/-- C6 counterexample: a reported reconnection does not guarantee the fast
fetch set runs to completion — when the nested fast cycle's token wait times
out, no fast fetch runs at all, yet the slow cycle proceeds with its own
fetches. -/
theorem resync_skipped_on_nested_timeout_cex :
    envNestedTimeout.hasReconnected = true ∧
    (async_update envNestedTimeout 0).2.1.count (Ev.fetch "get_plugin") = 0 ∧
    (async_update envNestedTimeout 0).2.1.count (Ev.fetch "get_disk") = 0 ∧
    (async_update envNestedTimeout 0).2.1.count (Ev.fetch "get_fs") = 1 ∧
    (async_update envNestedTimeout 0).2.2 = Outcome.returned := by
  refine ⟨rfl, by decide, by decide, by decide, rfl⟩

/-- C8 counterexample: the disk "sdb" passes the device-name filter, yet only
one SMART sub-query is issued because its getInformation response is empty —
refuting "issues the two sub-queries iff the name lacks the prefixes". -/
theorem smart_single_query_on_empty_info_cex :
    ("mmcblk".data.isPrefixOf "sdb".data = false ∧
     "sr".data.isPrefixOf "sdb".data = false ∧
     "bcache".data.isPrefixOf "sdb".data = false) ∧
    get_smart smartEnvEx [("sdb", diskSdb)] =
      some ([("sdb", diskSdb)], [("getInformation", "/dev/sdb")]) := by
  refine ⟨⟨by decide, by decide, by decide⟩, by decide⟩

/-- C9 counterexample: after init registers both interval timers, reset
leaves them registered (it only unsubscribes listeners), refuting "cancels
both interval timers". -/
theorem reset_keeps_timers_cex :
    (async_reset (async_init stListeners)).1.updTimer = some 60 ∧
    (async_reset (async_init stListeners)).1.hwTimer = some 3600 ∧
    (async_reset (async_init stListeners)).1.listeners = [] ∧
    (async_reset (async_init stListeners)).1.unsubbed = [1, 2] ∧
    (async_reset (async_init stListeners)).2 = true := by
  refine ⟨rfl, rfl, rfl, rfl, rfl⟩

/-- C9 (amended): async_reset invokes every registered listener's
unsubscribe callback in order, clears the listener list, returns True
unconditionally, and leaves both interval timers untouched. -/
theorem reset_unsubs_listeners_returns_true (st : CoordState) :
    (async_reset st).2 = true ∧
    (async_reset st).1.listeners = [] ∧
    (async_reset st).1.unsubbed = st.unsubbed ++ st.listeners ∧
    (async_reset st).1.updTimer = st.updTimer ∧
    (async_reset st).1.hwTimer = st.hwTimer := by
  simp [async_reset, foldl_unsubListener]

/-- Closed instance of the amended C9 theorem. -/
theorem reset_unsubs_listeners_returns_true_wit :
    (async_reset stListeners).1.unsubbed = stListeners.unsubbed ++ stListeners.listeners :=
  (reset_unsubs_listeners_returns_true stListeners).2.2.1

theorem getField_applyEnsure_head (sp : ValSpec) (specs : List ValSpec)
    (old r : Record) (v : PVal) (h1 : getField old sp.name = some v)
    (h2 : getField r sp.name = none) :
    getField (applyEnsure (sp :: specs) (some old) r) sp.name = some v := by
  have hef : ensureField (some old) sp = some v := by simp [ensureField, h1]
  have hstep : applyEnsure (sp :: specs) (some old) r
      = applyEnsure specs (some old) (r ++ [(sp.name, v)]) := by
    simp [applyEnsure, hef]
  rw [hstep]
  apply getField_applyEnsure_of_some
  rw [getField_append, h2]
  simp [getField, List.find?]

/-- C3: the keyed-collection merge of get_disk — the result's key list is
exactly the keys of the new raw rows (in order), ensure fields present in the
old record are carried over rather than reset, and the concrete instance
with existing keys A, B, C and new rows B, C, D yields exactly B, C, D with
B's enriched devicemodel preserved and D's ensure default applied. -/
theorem disk_merge_keyed_invariant (data : RecordMap) (src : List Record) :
    ((get_disk data src).map Prod.fst =
      src.filterMap (fun row => (getField row "devicename").map keyStr)) ∧
    (∀ row k old v rec,
      getField row "devicename" = some (PVal.s k) →
      lookupRec data k = some old →
      getField old "devicemodel" = some v →
      normalizeRow data "devicename" diskVals diskEnsure row = some (k, rec) →
      getField rec "devicemodel" = some v) ∧
    ((get_disk dataABC srcBCD).map Prod.fst = ["B", "C", "D"] ∧
     (lookupRec (get_disk dataABC srcBCD) "B").bind
       (fun r => getField r "devicemodel") = some (PVal.s "ModelB") ∧
     (lookupRec (get_disk dataABC srcBCD) "D").bind
       (fun r => getField r "devicemodel") = some (PVal.s "unknown")) := by
  refine ⟨?_, ?_, by decide, by decide, by decide⟩
  · unfold get_disk normalizeKeyed
    have hskip : ∀ row : Record, skipRow [] row = false := fun _ => rfl
    simp only [hskip, Bool.not_false, List.filter_true, List.map_filterMap]
    congr 1
    funext x
    cases hx : getField x "devicename" <;> simp [hx, normalizeRow]
  · intro row k old v rec h1 h2 h3 h4
    unfold normalizeRow at h4
    rw [h1] at h4
    simp only [Option.map_some', Option.some.injEq, Prod.mk.injEq] at h4
    obtain ⟨-, h5⟩ := h4
    rw [← h5]
    rw [show keyStr (PVal.s k) = k from rfl, h2]
    have hB : getField (buildRecord diskVals row) "devicemodel" = none :=
      getField_buildRecord_aux diskVals row "devicemodel" [] (by decide) rfl
    exact getField_applyEnsure_head _ _ old _ v h3 hB

/-- Closed instance of the C3 theorem: the merged record for key B keeps the
previously enriched devicemodel. -/
theorem disk_merge_keyed_invariant_wit :
    getField recBmerged "devicemodel" = some (PVal.s "ModelB") :=
  (disk_merge_keyed_invariant dataABC srcBCD).2.1 (diskRow "B") "B" oldB
    (PVal.s "ModelB") recBmerged rfl rfl rfl rfl

set_option maxHeartbeats 4000000

/-- C4: the uptime derivation of get_hwinfo — a negative raw count is
rendered as "-" before the absolute-value breakdown; 90061 seconds break down
to "1 days 01 hours 01 minutes 01 seconds"; and under version "6.0.0" (major
segment greater than 5) the raw integer 90061 produces uptimeEpoch equal to
the current time (seconds precision) minus 90061, while under version
"5.0.0" the same pre-formatted string taken as-is produces the same
instant. -/
theorem uptime_derivation (n now : Int) (hneg : n < 0) :
    uptimeBreakdown n = "-" ++ uptimeBreakdown (-n) ∧
    uptimeBreakdown 90061 = "1 days 01 hours 01 minutes 01 seconds" ∧
    ((get_hwinfo true [] (some (rowHw6 90061)) now).bind
      (fun r => getField r "uptimeEpoch") = some (PVal.i (now - 90061))) ∧
    ((get_hwinfo true [] (some rowHw5) now).bind
      (fun r => getField r "uptimeEpoch") = some (PVal.i (now - 90061))) := by
  refine ⟨?_, by decide, rfl, rfl⟩
  have h2 : ¬(-n < 0) := by omega
  simp [uptimeBreakdown, Int.natAbs_neg, hneg, h2]

/-- Closed instance of the C4 theorem at the raw count -5. -/
theorem uptime_derivation_wit :
    uptimeBreakdown (-5) = "-" ++ uptimeBreakdown 5 := by
  simpa using (uptime_derivation (-5) 0 (by norm_num)).1

/-- C7: the derived memory usage of get_hwinfo equals
round(memUsed / memTotal * 100, 1) when memTotal is positive and 0 when
memTotal is 0; in particular 512/0 yields 0 and 50/200 yields 25.0. -/
theorem mem_usage_percentage (u t now : Int) :
    (0 < t → (get_hwinfo true [] (some (rowMem u t)) now).bind
        (fun r => getField r "memUsage")
      = some (PVal.q (pythonRound1 ((u : ℚ) / (t : ℚ) * 100)))) ∧
    (t = 0 → (get_hwinfo true [] (some (rowMem u t)) now).bind
        (fun r => getField r "memUsage") = some (PVal.q 0)) ∧
    ((get_hwinfo true [] (some (rowMem 512 0)) now).bind
        (fun r => getField r "memUsage") = some (PVal.q 0)) ∧
    ((get_hwinfo true [] (some (rowMem 50 200)) now).bind
        (fun r => getField r "memUsage") = some (PVal.q 25)) := by
  have hproj : ∀ (a b : Int), (get_hwinfo true [] (some (rowMem a b)) now).bind
      (fun r => getField r "memUsage")
    = some (PVal.q (pythonRound1
        (if 0 < b then (a : ℚ) / (b : ℚ) * 100 else 0))) := fun a b => rfl
  refine ⟨?_, ?_, ?_, ?_⟩
  · intro h
    rw [hproj, if_pos h]
  · intro h
    subst h
    rw [hproj, if_neg (by omega)]
    norm_num [pythonRound1, bankersRound]
  · rw [hproj, if_neg (by norm_num)]
    norm_num [pythonRound1, bankersRound]
  · rw [hproj, if_pos (by norm_num)]
    norm_num [pythonRound1, bankersRound]

/-- Closed instance of the C7 theorem at memUsed 50, memTotal 200. -/
theorem mem_usage_percentage_wit :
    (get_hwinfo true [] (some (rowMem 50 200)) 0).bind
      (fun r => getField r "memUsage")
    = some (PVal.q (pythonRound1 ((50 : ℚ) / (200 : ℚ) * 100))) :=
  (mem_usage_percentage 50 200 0).1 (by norm_num)

set_option maxHeartbeats 200000

/-- C8 (amended): get_smart issues the static-attribute sub-query iff the
disk's devicename lacks the prefixes "mmcblk", "sr", "bcache" (such disks are
skipped untouched with no query); the attribute-counter sub-query is issued
only when the normalized getInformation result is non-empty — an empty
result leaves the disk's prior values unchanged after a single query; every
issued query list starts with the getInformation query; and in the concrete
run the whitelisted raw values are reduced to their piece before the first
space and written under the attribute's own name. -/
theorem smart_query_policy (env : SmartEnv) (rec : Record) (dn cdf : String)
    (hdn : getField rec "devicename" = some (PVal.s dn))
    (hcdf : getField rec "canonicaldevicefile" = some (PVal.s cdf)) :
    (("mmcblk".data.isPrefixOf dn.data || "sr".data.isPrefixOf dn.data
        || "bcache".data.isPrefixOf dn.data) = true →
      smart_one env rec = some (rec, [])) ∧
    (("mmcblk".data.isPrefixOf dn.data || "sr".data.isPrefixOf dn.data
        || "bcache".data.isPrefixOf dn.data) = false →
      env.smartInfo cdf = none →
      smart_one env rec = some (rec, [("getInformation", cdf)])) ∧
    (("mmcblk".data.isPrefixOf dn.data || "sr".data.isPrefixOf dn.data
        || "bcache".data.isPrefixOf dn.data) = false →
      ∀ res ql, smart_one env rec = some (res, ql) →
        ql.head? = some ("getInformation", cdf)) ∧
    ((get_smart smartEnvEx disksEx).map Prod.snd =
        some [("getInformation", "/dev/sda"), ("getAttributes", "/dev/sda")] ∧
     (get_smart smartEnvEx disksEx).bind (fun p => (lookupRec p.1 "sda").bind
        (fun r => getField r "Temperature_Celsius")) = some (PVal.s "35") ∧
     (get_smart smartEnvEx disksEx).bind (fun p => (lookupRec p.1 "sda").bind
        (fun r => getField r "Reallocated_Sector_Ct")) = some (PVal.s "8") ∧
     (get_smart smartEnvEx disksEx).bind (fun p => (lookupRec p.1 "sda").bind
        (fun r => getField r "Spin_Up_Time")) = some (PVal.i 150) ∧
     (get_smart smartEnvEx disksEx).bind (fun p => (lookupRec p.1 "sda").bind
        (fun r => getField r "devicemodel")) = some (PVal.s "WD10") ∧
     (get_smart smartEnvEx disksEx).bind (fun p => lookupRec p.1 "mmcblk0")
        = some diskMmc) := by
  have hred : smart_one env rec = smart_core env rec dn := by
    simp only [smart_one, hdn, optionBind_some, asStr]
  refine ⟨?_, ?_, ?_, by decide, by decide, by decide, by decide, by decide, by decide⟩
  · intro h
    rw [hred]
    unfold smart_core
    rw [if_pos h]
  · intro h hI
    rw [hred]
    unfold smart_core
    rw [if_neg (by simp [h])]
    simp only [hcdf, optionBind_some, asStr]
    unfold smart_fetch
    rw [hI]
    rfl
  · intro h res ql hsome
    rw [hred] at hsome
    unfold smart_core at hsome
    rw [if_neg (by simp [h])] at hsome
    simp only [hcdf, optionBind_some, asStr] at hsome
    simp only [smart_fetch] at hsome
    rcases hE : (normalizeSingle [] (env.smartInfo cdf) smartInfoVals []).isEmpty
    · rw [if_neg (by simp [hE])] at hsome
      rcases hC : copyFields smartStaticNames
          (normalizeSingle [] (env.smartInfo cdf) smartInfoVals []) rec with _ | rec1 <;>
        rw [hC] at hsome
      · simp at hsome
      · rw [optionBind_some] at hsome
        rcases hA : (normalizeKeyed [] (env.smartAttrs cdf) "attrname"
            smartAttrVals [] []).isEmpty
        · rw [if_neg (by simp [hA])] at hsome
          rw [Option.some.injEq, Prod.mk.injEq] at hsome
          obtain ⟨-, h3⟩ := hsome
          rw [← h3]
          rfl
        · rw [if_pos hA] at hsome
          rw [Option.some.injEq, Prod.mk.injEq] at hsome
          obtain ⟨-, h3⟩ := hsome
          rw [← h3]
          rfl
    · rw [if_pos hE] at hsome
      rw [Option.some.injEq, Prod.mk.injEq] at hsome
      obtain ⟨-, h3⟩ := hsome
      rw [← h3]
      rfl

/-- Closed instance of the C8 theorem: a flash device is skipped with no
query and an unchanged record. -/
theorem smart_query_policy_wit :
    smart_one smartEnvEx diskMmc = some (diskMmc, []) :=
  (smart_query_policy smartEnvEx diskMmc "mmcblk0" "/dev/mmcblk0" rfl rfl).1
    (by decide)

theorem count_notify_guard (c : Bool) (name : String) :
    ((if c then [Ev.fetch name] else []) : List Ev).count Ev.notify = 0 := by
  cases c <;> rfl

/-- C1 (amended): the fast cycle never emits a notification on any path; a
slow cycle abandoned on lock timeout emits none; and a slow cycle that
acquires the token and raises no internal exception emits exactly one
notification, placed immediately before the token's release (not after
it). -/
theorem notify_once_before_release {σ : Type} (e : Env σ) (s : σ) :
    (async_hwinfo_update e s).2.1.count Ev.notify = 0 ∧
    (e.updAcquireOk = false → (async_update e s).2.1.count Ev.notify = 0) ∧
    (e.updAcquireOk = true → noRaises e →
      ∃ t, (async_update e s).2.1 = t ++ [Ev.notify, Ev.release] ∧
        t.count Ev.notify = 0) := by
  refine ⟨fast_no_notify e s, ?_, ?_⟩
  · intro h
    unfold async_update
    rcases hR : e.hasReconnected
    · simp [h]
    · rcases hF : async_hwinfo_update e s with ⟨s0, t0, o0⟩
      have ht : t0.count Ev.notify = 0 := by
        have h2 := fast_no_notify e s
        rw [hF] at h2
        exact h2
      cases o0 <;> simp [h, ht]
  · intro hA hnr
    rw [async_update_norm e s hnr hA]
    refine ⟨(if e.hasReconnected then (async_hwinfo_update e s).2.1 else [])
      ++ [Ev.acquire, Ev.fetch "get_hwinfo"]
      ++ (if e.connS1 then [Ev.fetch "get_fs"] else [])
      ++ (if e.connS2 then [Ev.fetch "get_smart"] else [])
      ++ (if e.connS3 then [Ev.fetch "get_service"] else []), by simp, ?_⟩
    have h0 : (if e.hasReconnected then (async_hwinfo_update e s).2.1
        else []).count Ev.notify = 0 := by
      split
      · exact fast_no_notify e s
      · rfl
    simp [List.count_append, h0, count_notify_guard]

/-- Closed instance of the amended C1 theorem at a fully successful slow
cycle. -/
theorem notify_once_before_release_wit :
    ∃ t, (async_update envSlowOk 0).2.1 = t ++ [Ev.notify, Ev.release] ∧
      t.count Ev.notify = 0 :=
  (notify_once_before_release envSlowOk 0).2.2 rfl
    ⟨rfl, rfl, rfl, rfl, rfl, rfl, rfl⟩

/-- C5 (amended): a cycle whose bounded token wait fails is abandoned with a
normal return: the fast cycle leaves the snapshot untouched with an empty
trace; the slow cycle does the same when no reconnection was reported, and in
general returns with exactly the state and trace left by the
reconnect-triggered resync that ran before its token wait, emitting no
notification and raising no error. -/
theorem lock_timeout_silent_skip {σ : Type} (e : Env σ) (s : σ) :
    (e.hwAcquireOk = false → async_hwinfo_update e s = (s, [], Outcome.returned)) ∧
    (e.updAcquireOk = false → e.hasReconnected = false →
      async_update e s = (s, [], Outcome.returned)) ∧
    (e.updAcquireOk = false → noRaises e →
      async_update e s =
        ((if e.hasReconnected then (async_hwinfo_update e s).1 else s),
         (if e.hasReconnected then (async_hwinfo_update e s).2.1 else []),
         Outcome.returned)) := by
  refine ⟨?_, ?_, ?_⟩
  · intro h
    simp [async_hwinfo_update, h]
  · intro h1 h2
    simp [async_update, h1, h2]
  · intro h hnr
    obtain ⟨n1, n2, n3, _, _, _, _⟩ := hnr
    have hfast := async_hwinfo_update_norm e s n1 n2 n3
    rcases hR : e.hasReconnected <;> rcases hAf : e.hwAcquireOk <;>
      simp [async_update, hfast, hR, hAf, h]

/-- Closed instance of the amended C5 theorem: with both waits timing out and
no reconnection, both cycles return silently with nothing changed. -/
theorem lock_timeout_silent_skip_wit :
    async_hwinfo_update envTimeoutPlain 0 = (0, [], Outcome.returned) ∧
    async_update envTimeoutPlain 0 = (0, [], Outcome.returned) :=
  ⟨(lock_timeout_silent_skip envTimeoutPlain 0).1 rfl,
   (lock_timeout_silent_skip envTimeoutPlain 0).2.1 rfl rfl⟩

/-- C6 (amended): a slow cycle that acquires its token and raises nothing
first runs the fast cycle when a reconnection was reported (the fast cycle
itself subject to its own token wait and disconnect short-circuits), then
performs its own sub-fetches in the fixed order hardware-info, filesystems,
SMART, services, each guarded by the preceding connectivity check; the final
snapshot applies exactly the mutators of the executed sub-fetches, so skipped
sub-fetches leave their snapshot categories unchanged. -/
theorem slow_cycle_order_and_guards {σ : Type} (e : Env σ) (s : σ)
    (h1 : noRaises e) (h2 : e.updAcquireOk = true) :
    (async_update e s).2.1 =
      (if e.hasReconnected then (async_hwinfo_update e s).2.1 else [])
        ++ [Ev.acquire, Ev.fetch "get_hwinfo"]
        ++ (if e.connS1 then [Ev.fetch "get_fs"] else [])
        ++ (if e.connS2 then [Ev.fetch "get_smart"] else [])
        ++ (if e.connS3 then [Ev.fetch "get_service"] else [])
        ++ [Ev.notify, Ev.release] ∧
    (async_update e s).1 =
      (if e.connS3 then e.mService else id)
        ((if e.connS2 then e.mSmart else id)
          ((if e.connS1 then e.mFs else id)
            (e.mHw (if e.hasReconnected then (async_hwinfo_update e s).1 else s)))) := by
  rw [async_update_norm e s h1 h2]
  exact ⟨rfl, rfl⟩

/-- Closed instance of the amended C6 theorem at a fully successful slow
cycle with no reconnection. -/
theorem slow_cycle_order_and_guards_wit :
    (async_update envSlowOk 0).2.1 =
      [Ev.acquire, Ev.fetch "get_hwinfo", Ev.fetch "get_fs", Ev.fetch "get_smart",
       Ev.fetch "get_service", Ev.notify, Ev.release] := by
  have h := (slow_cycle_order_and_guards envSlowOk 0
    ⟨rfl, rfl, rfl, rfl, rfl, rfl, rfl⟩ rfl).1
  simpa using h

end OMV
